import Mathlib

/-!
Shallow embedding of the game-platform backend
(`Server/backend/server.js`, `Server/backend/models/user.js`,
`Server/backend/models/game.js`).

Modelling conventions:
* MongoDB documents become Lean structures; the two collections become
  lists carried in a `DB` record; `findOne` / `findById` become
  `List.find?`, `updateMany` with a pull becomes a `map` + `filter`, and
  `save` of a loaded document writes it back by id.
* JSON body fields that may be absent are `Option` values, and JavaScript
  truthiness tests (`if(!x)`) on strings are `falsyS`.
* The mongoose schema setter `lowercase: true` on `email` normalizes the
  stored value and the values compared in queries, via `normEmail`.
* `bcrypt.hash` / `bcrypt.compare` are modelled by a deterministic
  injective tag function (the random salt is outside a functional model);
  `bcryptCompare pw h` holds exactly when `h` was derived from `pw`.
* `jsonwebtoken` signing is modelled structurally: a `Token` carries its
  claims, issue/expiry instants and a keyed checksum; `jwtVerify` checks
  the checksum against the secret and that the token is unexpired.
* Handlers return a result inductive (mapped to HTTP statuses by a
  `status` function) plus the new `DB`; throwing routes that a `catch`
  turns into a 500 are explicit `serverError` results.
-/

namespace Plataforma

/-- A game document (`Server/backend/models/game.js`).  `price` is a JS
number; the claims in play only need integers, so it is `Int`. -/
structure Game where
  id : String
  title : String
  descr : String
  price : Int
  coverUrl : String
  genre : String
  releaseDate : Option String
  createdBy : Option String
deriving Repr, DecidableEq

/-- A user document (`Server/backend/models/user.js`).  `library` is the
list of game ids (ObjectId references rendered as strings). -/
structure User where
  id : String
  username : String
  email : String
  passwordHash : String
  isAdmin : Bool
  library : List String
deriving Repr, DecidableEq

/-- The two MongoDB collections. -/
structure DB where
  users : List User
  games : List Game
deriving Repr, DecidableEq

/-- JavaScript truthiness test `!x` for an optional string field:
falsy when the field is absent (`undefined`) or the empty string. -/
def falsyS : Option String → Bool
  | none => true
  | some s => s == ""

/-- The mongoose `lowercase: true` setter on the `email` path: applied
when storing an email and when casting an email value in a query.
JavaScript `toLowerCase`, written as a character map so that concrete
instances reduce. -/
def normEmail (s : String) : String := ⟨s.data.map Char.toLower⟩

/-- Model of `bcrypt.hash(pw, rounds)`: a deterministic, injective-in-`pw`
tag (the random salt has no functional content to model). -/
def bcryptHash (rounds : Nat) (pw : String) : String :=
  "bcrypt$" ++ toString rounds ++ "$" ++ pw

/-- Model of `bcrypt.compare(pw, h)`: true exactly when `h` was produced
by hashing `pw` (every hash in this system uses `saltRounds = 10`). -/
def bcryptCompare (pw h : String) : Bool :=
  h == bcryptHash 10 pw

/-- The fallback signing secret from `server.js` line 13. -/
def JWT_SECRET : String := "secretllavesecreta"

/-- The payload the server signs: `{ id, username, isAdmin }`. -/
structure Claims where
  id : String
  username : String
  isAdmin : Bool
deriving Repr, DecidableEq

/-- Seconds in the expiresIn window of 7d. -/
def sevenDays : Nat := 7 * 24 * 60 * 60

/-- Keyed checksum standing in for the HMAC of the JWT library. -/
def jwtMac (secret : String) (c : Claims) (iat exp : Nat) : Nat :=
  secret.length * 1000003 + c.id.length * 97 + c.username.length * 31 +
    (if c.isAdmin then 7 else 11) + iat * 13 + exp * 17

/-- A signed token: claims, issue and expiry instants, checksum. -/
structure Token where
  claims : Claims
  iat : Nat
  exp : Nat
  sig : Nat
deriving Repr, DecidableEq

/-- Model of jwt.sign with the 7d expiry window, issued at `now`. -/
def jwtSign (secret : String) (c : Claims) (now : Nat) : Token :=
  ⟨c, now, now + sevenDays, jwtMac secret c now (now + sevenDays)⟩

/-- Model of jwt.verify: the checksum must match the secret and the
token must be unexpired at `now`; a verified token yields its claims. -/
def jwtVerify (secret : String) (t : Token) (now : Nat) : Option Claims :=
  if t.sig == jwtMac secret t.claims t.iat t.exp && now < t.exp then
    some t.claims
  else none

/-- Outcome of `POST /api/auth/register`. -/
inductive RegisterOut where
  | missingFields
  | duplicate
  | serverError
  | success (token : Token) (u : User)
deriving Repr, DecidableEq

/-- HTTP status of a register outcome. -/
def RegisterOut.status : RegisterOut → Nat
  | .missingFields => 400
  | .duplicate => 400
  | .serverError => 500
  | .success _ _ => 200

/-- The register route, app.post(/api/auth/register), server.js lines
66-86.  `newId` is the ObjectId mongo generates, `now` the issue
instant.  Saving runs the schema validators, so a username shorter than
the schema minlength of 3 throws and the catch answers 500. -/
def register (db : DB) (username email password : Option String)
    (newId : String) (now : Nat) : RegisterOut × DB :=
  if falsyS username || falsyS email || falsyS password then
    (.missingFields, db)
  else
    let un := username.getD ""
    let em := email.getD ""
    let pw := password.getD ""
    match db.users.find? (fun u => u.email == normEmail em || u.username == un) with
    | some _ => (.duplicate, db)
    | none =>
      if un.length < 3 then (.serverError, db)
      else
        let u : User := ⟨newId, un, normEmail em, bcryptHash 10 pw, false, []⟩
        let tok := jwtSign JWT_SECRET ⟨u.id, u.username, u.isAdmin⟩ now
        (.success tok u, ⟨db.users ++ [u], db.games⟩)

/-- Outcome of `POST /api/auth/login`. -/
inductive LoginOut where
  | missingFields
  | invalidCredentials
  | success (token : Token) (u : User)
deriving Repr, DecidableEq

/-- HTTP status of a login outcome. -/
def LoginOut.status : LoginOut → Nat
  | .missingFields => 400
  | .invalidCredentials => 400
  | .success _ _ => 200

/-- The `$or` lookup both auth routes use: an existing user matches the
identity if the (query-normalized) email equals the stored email or the
identity equals the stored username verbatim. -/
def matchesIdentity (ident : String) (u : User) : Bool :=
  u.email == normEmail ident || u.username == ident

/-- The findOne lookup with the $or clause over email and username. -/
def findOneByIdentity (db : DB) (ident : String) : Option User :=
  db.users.find? (matchesIdentity ident)

/-- The login route, app.post(/api/auth/login), server.js lines 88-105. -/
def login (db : DB) (emailOrUsername password : Option String)
    (now : Nat) : LoginOut :=
  if falsyS emailOrUsername || falsyS password then .missingFields
  else
    let ident := emailOrUsername.getD ""
    let pw := password.getD ""
    match findOneByIdentity db ident with
    | none => .invalidCredentials
    | some user =>
      if bcryptCompare pw user.passwordHash then
        .success (jwtSign JWT_SECRET ⟨user.id, user.username, user.isAdmin⟩ now) user
      else .invalidCredentials

/-- JavaScript `x || d` on an optional number field: absent, `null` and
`0` are falsy and give the default; any other value passes through. -/
def jsOrInt (x : Option Int) (d : Int) : Int :=
  match x with
  | none => d
  | some v => if v == 0 then d else v

/-- JavaScript `x || d` on an optional string field. -/
def jsOrStr (x : Option String) (d : String) : String :=
  match x with
  | none => d
  | some v => if v == "" then d else v

/-- Outcome of `POST /api/games`. -/
inductive CreateOut where
  | titleRequired
  | success (g : Game)
deriving Repr, DecidableEq

/-- HTTP status of a create-game outcome. -/
def CreateOut.status : CreateOut → Nat
  | .titleRequired => 400
  | .success _ => 200

/-- The create-game route, app.post(/api/games), server.js lines
133-156, after the auth middleware: `claimsId` is `req.user.id`,
`newId` the generated ObjectId.  Price, coverUrl and genre default by
JavaScript or-defaulting; releaseDate becomes null when falsy. -/
def createGame (db : DB) (claimsId : String)
    (title descr : Option String) (price : Option Int)
    (coverUrl genre releaseDate : Option String)
    (newId : String) : CreateOut × DB :=
  if falsyS title then (.titleRequired, db)
  else
    let g : Game :=
      ⟨newId, title.getD "", descr.getD "", jsOrInt price 0,
        jsOrStr coverUrl "", jsOrStr genre "",
        (if falsyS releaseDate then none else releaseDate),
        some claimsId⟩
    (.success g, ⟨db.users, db.games ++ [g]⟩)

/-- A partial update body for `PUT /api/games/:id`: absent fields are
left untouched, present fields overwrite (no field validation). -/
structure GameUpdate where
  title : Option String
  descr : Option String
  price : Option Int
  coverUrl : Option String
  genre : Option String
deriving Repr, DecidableEq

/-- Apply a partial update to a game document, as
`findByIdAndUpdate(id, update)` does (no validators re-run). -/
def applyUpdate (g : Game) (u : GameUpdate) : Game :=
  ⟨g.id, u.title.getD g.title, u.descr.getD g.descr,
    u.price.getD g.price, u.coverUrl.getD g.coverUrl,
    u.genre.getD g.genre, g.releaseDate, g.createdBy⟩

/-- Outcome of `PUT /api/games/:id`. -/
inductive UpdateOut where
  | notFound
  | updated (g : Game)
deriving Repr, DecidableEq

/-- HTTP status of an update outcome. -/
def UpdateOut.status : UpdateOut → Nat
  | .notFound => 404
  | .updated _ => 200

/-- The update route, app.put(/api/games/:id), server.js lines 159-169. -/
def updateGame (db : DB) (id : String) (upd : GameUpdate) : UpdateOut × DB :=
  match db.games.find? (fun g => g.id == id) with
  | none => (.notFound, db)
  | some g =>
    let g2 := applyUpdate g upd
    (.updated g2, ⟨db.users, db.games.map (fun x => if x.id == id then g2 else x)⟩)

/-- Outcome of `DELETE /api/games/:id`. -/
inductive DeleteOut where
  | notFound
  | deleted
deriving Repr, DecidableEq

/-- HTTP status of a delete outcome. -/
def DeleteOut.status : DeleteOut → Nat
  | .notFound => 404
  | .deleted => 200

/-- The delete route, app.delete(/api/games/:id), server.js lines
172-183: findByIdAndDelete, 404 when absent; then updateMany with a
$pull removes the id of the deleted game from the library of every
user, and only then is the Deleted confirmation sent. -/
def deleteGame (db : DB) (id : String) : DeleteOut × DB :=
  match db.games.find? (fun g => g.id == id) with
  | none => (.notFound, db)
  | some game =>
    let games2 := db.games.filter (fun g => g.id != id)
    let users2 := db.users.map
      (fun u => ⟨u.id, u.username, u.email, u.passwordHash, u.isAdmin,
        u.library.filter (fun gid => gid != game.id)⟩)
    (.deleted, ⟨users2, games2⟩)

/-- Outcome of `POST /api/library/add`. -/
inductive AddOut where
  | gameIdRequired
  | gameNotFound
  | userNotFound
  | alreadyInLibrary
  | added (library : List String)
deriving Repr, DecidableEq

/-- HTTP status of a library-add outcome. -/
def AddOut.status : AddOut → Nat
  | .gameIdRequired => 400
  | .gameNotFound => 404
  | .userNotFound => 404
  | .alreadyInLibrary => 400
  | .added _ => 200

/-- Write a loaded-and-mutated user document back, as `user.save()`
does: the document with that `_id` takes the new value. -/
def saveUser (users : List User) (u2 : User) : List User :=
  users.map (fun u => if u.id == u2.id then u2 else u)

/-- The add route, app.post(/api/library/add), server.js lines
198-217, after the auth middleware: `userId` is `req.user.id`,
`gameId` the body field. -/
def libraryAdd (db : DB) (userId : String) (gameId : Option String) :
    AddOut × DB :=
  if falsyS gameId then (.gameIdRequired, db)
  else
    let gid := gameId.getD ""
    match db.games.find? (fun g => g.id == gid) with
    | none => (.gameNotFound, db)
    | some game =>
      match db.users.find? (fun u => u.id == userId) with
      | none => (.userNotFound, db)
      | some user =>
        if user.library.contains game.id then (.alreadyInLibrary, db)
        else
          let user2 : User := ⟨user.id, user.username, user.email,
            user.passwordHash, user.isAdmin, user.library ++ [game.id]⟩
          (.added user2.library, ⟨saveUser db.users user2, db.games⟩)

/-- Outcome of `POST /api/library/remove`. -/
inductive RemoveOut where
  | gameIdRequired
  | userNotFound
  | removed (library : List String)
deriving Repr, DecidableEq

/-- HTTP status of a library-remove outcome. -/
def RemoveOut.status : RemoveOut → Nat
  | .gameIdRequired => 400
  | .userNotFound => 404
  | .removed _ => 200

/-- The remove route, app.post(/api/library/remove), server.js lines
220-234: no lookup of the game, only of the user; the library is
filtered by string inequality with gameId. -/
def libraryRemove (db : DB) (userId : String) (gameId : Option String) :
    RemoveOut × DB :=
  if falsyS gameId then (.gameIdRequired, db)
  else
    let gid := gameId.getD ""
    match db.users.find? (fun u => u.id == userId) with
    | none => (.userNotFound, db)
    | some user =>
      let user2 : User := ⟨user.id, user.username, user.email,
        user.passwordHash, user.isAdmin,
        user.library.filter (fun g => g != gid)⟩
      (.removed user2.library, ⟨saveUser db.users user2, db.games⟩)

/-- Outcome of the auth middleware. -/
inductive AuthOut where
  | missingToken
  | malformedToken
  | invalidToken
  | authed (c : Claims)
deriving Repr, DecidableEq

/-- HTTP status of an auth-middleware outcome (200 meaning the request
proceeds to the handler with the claims attached). -/
def AuthOut.status : AuthOut → Nat
  | .missingToken => 401
  | .malformedToken => 401
  | .invalidToken => 401
  | .authed _ => 200

/-- Index 1 of the header split on a single space, followed by the
if(!token) truthiness check: the bearer credential part of the header,
`none` when the header has no non-empty second space-separated part. -/
def bearerTokenOf (h : String) : Option String :=
  match (h.splitOn " ").get? 1 with
  | none => none
  | some t => if t == "" then none else some t

/-- The middleware authMiddleware, server.js lines 46-60.  `verifyFn`
stands for jwt.verify with JWT_SECRET on the wire encoding of tokens:
`none` when the library throws (bad signature, expired, or undecodable
string). -/
def authMiddleware (verifyFn : String → Option Claims)
    (authHeader : Option String) : AuthOut :=
  if falsyS authHeader then .missingToken
  else
    match bearerTokenOf (authHeader.getD "") with
    | none => .malformedToken
    | some tok =>
      match verifyFn tok with
      | none => .invalidToken
      | some payload => .authed payload

/-! ### Helper lemmas -/

/-- Writing back a mutated document with the same id: the first match of
the id lookup becomes the written document. -/
theorem find?_saveUser (l : List User) (uid : String) (u u2 : User)
    (h : l.find? (fun v => v.id == uid) = some u) (h2 : u2.id = u.id) :
    (saveUser l u2).find? (fun v => v.id == uid) = some u2 := by
  have hpu := List.find?_some h
  have huid : u.id = uid := by simpa using hpu
  induction l with
  | nil => simp [List.find?] at h
  | cons a l ih =>
    by_cases hpa : (a.id == uid) = true
    · have ha : a = u := by
        have : some a = some u := by simpa [List.find?, hpa] using h
        simpa using this
      have haid : (a.id == u2.id) = true := by
        simp [ha, h2]
      have hp2 : (u2.id == uid) = true := by simp [h2, huid]
      simp [saveUser, List.find?, haid, hp2]
    · have htl : l.find? (fun v => v.id == uid) = some u := by
        simpa [List.find?, hpa] using h
      have haid : (a.id == u2.id) = false := by
        have : a.id ≠ uid := by simpa using hpa
        simp [h2, huid]
        exact this
      have := ih htl
      simpa [saveUser, List.find?, haid, hpa] using this

/-- A find? lookup returns the element when it is the unique satisfier. -/
theorem find?_of_unique {α : Type} (p : α → Bool) (l : List α) (u : α)
    (hu : u ∈ l) (hp : p u = true)
    (huniq : ∀ v ∈ l, p v = true → v = u) :
    l.find? p = some u := by
  induction l with
  | nil => simp at hu
  | cons a l ih =>
    by_cases hpa : p a = true
    · have ha : a = u := huniq a (List.mem_cons_self a l) hpa
      simp [List.find?, ha, hp]
    · have hau : u ≠ a := fun he => hpa (he ▸ hp)
      have hu2 : u ∈ l := by
        rcases List.mem_cons.mp hu with h | h
        · exact absurd h hau
        · exact h
      have := ih hu2 (fun v hv hpv => huniq v (List.mem_cons_of_mem a hv) hpv)
      simpa [List.find?, hpa] using this

/-- The username/email distinctness invariant, executably. -/
def distinctIdents : List User → Bool
  | [] => true
  | u :: rest =>
    rest.all (fun v => u.username != v.username && u.email != v.email) &&
      distinctIdents rest

/-- Appending a user whose username and email clash with no existing
user preserves distinctness. -/
theorem distinctIdents_append (l : List User) (w : User)
    (hd : distinctIdents l = true)
    (hw : ∀ x ∈ l, x.username ≠ w.username ∧ x.email ≠ w.email) :
    distinctIdents (l ++ [w]) = true := by
  induction l with
  | nil => simp [distinctIdents]
  | cons a l ih =>
    have hda : l.all (fun v => a.username != v.username && a.email != v.email) = true ∧
        distinctIdents l = true := by
      simpa [distinctIdents, Bool.and_eq_true] using hd
    have haw := hw a (List.mem_cons_self a l)
    have ihl := ih hda.2 (fun x hx => hw x (List.mem_cons_of_mem a hx))
    simp [distinctIdents, List.all_append, Bool.and_eq_true, ihl, hda.1]
    constructor
    · simpa using haw.1
    · simpa using haw.2

/-- The hash model is injective in the password. -/
theorem bcryptHash_inj (a b : String) (h : bcryptHash 10 a = bcryptHash 10 b) :
    a = b := by
  have hd := congrArg String.data h
  simp only [bcryptHash, String.data_append] at hd
  have := List.append_cancel_left hd
  cases a; cases b; simp_all

/-- Or-defaulting a price with 0 coincides with defaulting only the
absent case. -/
theorem jsOrInt_zero (x : Option Int) : jsOrInt x 0 = x.getD 0 := by
  cases x with
  | none => rfl
  | some v =>
    by_cases hv : v = 0 <;> simp [jsOrInt, hv]

/-! ### Claims -/

/-- C1: For every game g and every set of users, after a DELETE of g via
the catalog succeeds (is reported with the Deleted confirmation), no
library of any user contains the id of g: the cascade removal from
every library completes before the delete is reported successful. -/
theorem C1_delete_cascades_all_libraries (db : DB) (id : String) (db2 : DB)
    (h : deleteGame db id = (.deleted, db2)) :
    ∀ u ∈ db2.users, id ∉ u.library := by
  unfold deleteGame at h
  cases hf : db.games.find? (fun g => g.id == id) with
  | none => rw [hf] at h; simp at h
  | some game =>
    rw [hf] at h
    have hid : game.id = id := by
      have := List.find?_some hf
      simpa using this
    have hdb2 : db2 = ⟨db.users.map
        (fun u => ⟨u.id, u.username, u.email, u.passwordHash, u.isAdmin,
          u.library.filter (fun gid => gid != game.id)⟩),
        db.games.filter (fun g => g.id != id)⟩ := by
      have := congrArg Prod.snd h
      simpa using this.symm
    subst hdb2
    intro u hu
    rcases List.mem_map.mp hu with ⟨v, hv, rfl⟩
    intro hmem
    have := (List.mem_filter.mp hmem).2
    rw [hid] at this
    simp at this

/-- C1 witness: a concrete delete whose cascade empties the one library
referencing the game. -/
theorem C1_delete_cascades_all_libraries_witness :
    "g1" ∉ (⟨"u1", "ann", "a@x.com", "h", false, []⟩ : User).library := by
  have h : deleteGame
      ⟨[⟨"u1", "ann", "a@x.com", "h", false, ["g1"]⟩],
        [⟨"g1", "Chess", "", 0, "", "", none, none⟩]⟩ "g1" =
      (.deleted, ⟨[⟨"u1", "ann", "a@x.com", "h", false, []⟩], []⟩) := by rfl
  exact C1_delete_cascades_all_libraries _ "g1" _ h
    ⟨"u1", "ann", "a@x.com", "h", false, []⟩ (by simp)

/-- C2 counterexample: the claim that no operation (create or update)
can make the price of a Game negative is false: the or-defaulting of
price only replaces falsy values, so a create with price -5 stores -5. -/
theorem C2_negative_price_counterexample :
    (createGame ⟨[], []⟩ "u1" (some "Chess") none (some (-5)) none none none
        "g1").1 =
      .success ⟨"g1", "Chess", "", -5, "", "", none, some "u1"⟩ ∧
    ((createGame ⟨[], []⟩ "u1" (some "Chess") none (some (-5)) none none none
        "g1").2.games.map Game.price) = [-5] ∧
    ((-5 : Int) < 0) := by
  refine ⟨rfl, rfl, by decide⟩

/-- C2 amended: a game created without a price field (or with price 0)
has price 0; but prices are not validated: create stores any non-zero
given price verbatim, negative values included, and update overwrites
price with whatever value is given. -/
theorem C2_price_defaulted_but_unvalidated :
    (∀ (db : DB) (cid : String) (title descr : Option String)
        (price : Option Int) (cov gen rd : Option String) (newId : String)
        (gm : Game),
      (createGame db cid title descr price cov gen rd newId).1 = .success gm →
      gm.price = price.getD 0) ∧
    (∀ (x : Game) (u : GameUpdate) (p : Int),
      u.price = some p → (applyUpdate x u).price = p) := by
  constructor
  · intro db cid title descr price cov gen rd newId gm h
    unfold createGame at h
    by_cases ht : falsyS title = true
    · simp [ht] at h
    · simp only [Bool.not_eq_true] at ht
      simp only [ht, Bool.false_eq_true, if_false] at h
      have hgm : gm = ⟨newId, title.getD "", descr.getD "", jsOrInt price 0,
          jsOrStr cov "", jsOrStr gen "",
          (if falsyS rd then none else rd), some cid⟩ := by
        cases h
        rfl
      rw [hgm]
      exact jsOrInt_zero price
  · intro x u p hp
    simp [applyUpdate, hp]

/-- C2 amended witness: a create without a price yields price 0, and an
update carrying price -7 stores -7. -/
theorem C2_price_defaulted_but_unvalidated_witness :
    (⟨"g2", "Go", "", 0, "", "", none, some "u1"⟩ : Game).price =
      (none : Option Int).getD 0 ∧
    (applyUpdate ⟨"g2", "Go", "", 0, "", "", none, some "u1"⟩
        ⟨none, none, some (-7), none, none⟩).price = -7 := by
  refine ⟨?_, ?_⟩
  · exact C2_price_defaulted_but_unvalidated.1 ⟨[], []⟩ "u1" (some "Go") none
      none none none none "g2" ⟨"g2", "Go", "", 0, "", "", none, some "u1"⟩ rfl
  · exact C2_price_defaulted_but_unvalidated.2
      ⟨"g2", "Go", "", 0, "", "", none, some "u1"⟩
      ⟨none, none, some (-7), none, none⟩ (-7) rfl

/-- C3: if the id of the game is already in the library of the user
then add fails with 400 (AlreadyPresent), not a silent success; in
particular a successful add followed immediately by the same add fails
the second time. -/
theorem C3_add_rejects_duplicates :
    (∀ (db : DB) (uid gid : String) (game : Game) (user : User),
      gid ≠ "" →
      db.games.find? (fun g => g.id == gid) = some game →
      db.users.find? (fun u => u.id == uid) = some user →
      game.id ∈ user.library →
      (libraryAdd db uid (some gid)).1 = .alreadyInLibrary ∧
        ((libraryAdd db uid (some gid)).1).status = 400) ∧
    (∀ (db : DB) (uid : String) (gid : Option String) (lib : List String)
        (db2 : DB),
      libraryAdd db uid gid = (.added lib, db2) →
      (libraryAdd db2 uid gid).1 = .alreadyInLibrary) := by
  constructor
  · intro db uid gid game user hg hfg hfu hmem
    have hgf : falsyS (some gid) = false := by simpa [falsyS] using hg
    simp [libraryAdd, hgf, hfg, hfu, hmem, AddOut.status]
  · intro db uid gid lib db2 h
    unfold libraryAdd at h
    by_cases hgf : falsyS gid = true
    · simp [hgf] at h
    · simp only [Bool.not_eq_true] at hgf
      simp only [hgf, Bool.false_eq_true, if_false] at h
      cases hfg : db.games.find? (fun g => g.id == gid.getD "") with
      | none => rw [hfg] at h; simp at h
      | some game =>
        simp only [hfg] at h
        cases hfu : db.users.find? (fun u => u.id == uid) with
        | none => rw [hfu] at h; simp at h
        | some user =>
          simp only [hfu] at h
          by_cases hc : user.library.contains game.id = true
          · rw [if_pos hc] at h; simp at h
          · rw [if_neg hc] at h
            have hdb2 : db2 = ⟨saveUser db.users
                ⟨user.id, user.username, user.email, user.passwordHash,
                  user.isAdmin, user.library ++ [game.id]⟩, db.games⟩ := by
              have := congrArg Prod.snd h
              simpa using this.symm
            subst hdb2
            have hfg2 : (⟨saveUser db.users
                ⟨user.id, user.username, user.email, user.passwordHash,
                  user.isAdmin, user.library ++ [game.id]⟩,
                db.games⟩ : DB).games.find? (fun g => g.id == gid.getD "") =
                some game := hfg
            have hfu2 := find?_saveUser db.users uid user
              ⟨user.id, user.username, user.email, user.passwordHash,
                user.isAdmin, user.library ++ [game.id]⟩ hfu rfl
            have hmem2 : game.id ∈ user.library ++ [game.id] :=
              List.mem_append_right _ (by simp)
            simp [libraryAdd, hgf, hfg2, hfu2, hmem2]

/-- C3 witness: with game g1 in the catalog and already in the library
of ann, add is rejected with 400; and a fresh add followed by the same
add fails the second time. -/
theorem C3_add_rejects_duplicates_witness :
    ((libraryAdd ⟨[⟨"u1", "ann", "a@x.com", "h", false, ["g1"]⟩],
        [⟨"g1", "Chess", "", 0, "", "", none, none⟩]⟩ "u1" (some "g1")).1 =
      .alreadyInLibrary ∧
      ((libraryAdd ⟨[⟨"u1", "ann", "a@x.com", "h", false, ["g1"]⟩],
        [⟨"g1", "Chess", "", 0, "", "", none, none⟩]⟩ "u1" (some "g1")).1).status =
        400) ∧
    (libraryAdd (libraryAdd ⟨[⟨"u1", "ann", "a@x.com", "h", false, []⟩],
        [⟨"g1", "Chess", "", 0, "", "", none, none⟩]⟩ "u1" (some "g1")).2
      "u1" (some "g1")).1 = .alreadyInLibrary := by
  constructor
  · exact C3_add_rejects_duplicates.1
      ⟨[⟨"u1", "ann", "a@x.com", "h", false, ["g1"]⟩],
        [⟨"g1", "Chess", "", 0, "", "", none, none⟩]⟩ "u1" "g1"
      ⟨"g1", "Chess", "", 0, "", "", none, none⟩
      ⟨"u1", "ann", "a@x.com", "h", false, ["g1"]⟩
      (by decide) (by rfl) (by rfl) (by simp)
  · exact C3_add_rejects_duplicates.2
      ⟨[⟨"u1", "ann", "a@x.com", "h", false, []⟩],
        [⟨"g1", "Chess", "", 0, "", "", none, none⟩]⟩ "u1" (some "g1") ["g1"]
      ⟨[⟨"u1", "ann", "a@x.com", "h", false, ["g1"]⟩],
        [⟨"g1", "Chess", "", 0, "", "", none, none⟩]⟩ (by rfl)

/-- C4: for every user u and game id g, remove(u, g) where g is not in
the library of u succeeds (200) and leaves that library unchanged; when
g is present, remove succeeds with g no longer in the library. -/
theorem C4_remove_is_noop_success_when_absent (db : DB) (uid gid : String)
    (user : User)
    (hu : db.users.find? (fun u => u.id == uid) = some user)
    (hg : gid ≠ "") :
    ((libraryRemove db uid (some gid)).1).status = 200 ∧
    (gid ∉ user.library →
      (libraryRemove db uid (some gid)).1 = .removed user.library) ∧
    (∀ lib, (libraryRemove db uid (some gid)).1 = .removed lib →
      gid ∉ lib) := by
  have hgf : falsyS (some gid) = false := by simpa [falsyS] using hg
  refine ⟨?_, ?_, ?_⟩
  · simp [libraryRemove, hgf, hu, RemoveOut.status]
  · intro habs
    have hfix : user.library.filter (fun g => g != gid) = user.library := by
      refine List.filter_eq_self.mpr ?_
      intro a ha
      have : a ≠ gid := fun he => habs (he ▸ ha)
      simpa using this
    simp [libraryRemove, hgf, hu, hfix]
  · intro lib hlib
    have hl : user.library.filter (fun g => g != gid) = lib := by
      simpa [libraryRemove, hgf, hu] using hlib
    subst hl
    intro hmem
    have := (List.mem_filter.mp hmem).2
    simp at this

/-- C4 witness: removing absent g9 from the library of ann is a 200
no-op, and removing present g1 yields a library without g1. -/
theorem C4_remove_is_noop_success_when_absent_witness :
    ((libraryRemove ⟨[⟨"u1", "ann", "a@x.com", "h", false, ["g1"]⟩], []⟩
        "u1" (some "g9")).1).status = 200 ∧
    ("g9" ∉ (["g1"] : List String) →
      (libraryRemove ⟨[⟨"u1", "ann", "a@x.com", "h", false, ["g1"]⟩], []⟩
        "u1" (some "g9")).1 = .removed ["g1"]) ∧
    (∀ lib, (libraryRemove ⟨[⟨"u1", "ann", "a@x.com", "h", false, ["g1"]⟩], []⟩
        "u1" (some "g9")).1 = .removed lib → "g9" ∉ lib) :=
  C4_remove_is_noop_success_when_absent
    ⟨[⟨"u1", "ann", "a@x.com", "h", false, ["g1"]⟩], []⟩ "u1" "g9"
    ⟨"u1", "ann", "a@x.com", "h", false, ["g1"]⟩ (by rfl) (by decide)

/-- C9: remove(u, g) succeeds even when no Game with id g exists in the
catalog: remove performs no existence check on the game, only on the
user.  The outcome is independent of the games collection altogether. -/
theorem C9_remove_skips_game_existence_check (users : List User)
    (games : List Game) (uid gid : String) (user : User)
    (hg : gid ≠ "")
    (_hnogame : ∀ g ∈ games, g.id ≠ gid)
    (hu : users.find? (fun u => u.id == uid) = some user) :
    ((libraryRemove ⟨users, games⟩ uid (some gid)).1).status = 200 ∧
    (∃ lib, (libraryRemove ⟨users, games⟩ uid (some gid)).1 = .removed lib) ∧
    (∀ games2 : List Game,
      (libraryRemove ⟨users, games2⟩ uid (some gid)).1 =
        (libraryRemove ⟨users, games⟩ uid (some gid)).1) := by
  have hgf : falsyS (some gid) = false := by simpa [falsyS] using hg
  refine ⟨?_, ?_, ?_⟩
  · simp [libraryRemove, hgf, hu, RemoveOut.status]
  · exact ⟨user.library.filter (fun g => g != gid),
      by simp [libraryRemove, hgf, hu]⟩
  · intro games2
    simp [libraryRemove, hgf, hu]

/-- C9 witness: removing g7, absent from an empty catalog, from the
library of ann succeeds with 200. -/
theorem C9_remove_skips_game_existence_check_witness :
    ((libraryRemove ⟨[⟨"u1", "ann", "a@x.com", "h", false, ["g1"]⟩], []⟩
        "u1" (some "g7")).1).status = 200 :=
  (C9_remove_skips_game_existence_check
    [⟨"u1", "ann", "a@x.com", "h", false, ["g1"]⟩] [] "u1" "g7"
    ⟨"u1", "ann", "a@x.com", "h", false, ["g1"]⟩ (by decide) (by simp)
    (by rfl)).1

/-- C10: whenever add(u, g) fails (missing gameId, game not found, user
not found, or already present), the database — in particular the
library of u — is unchanged: every error branch returns before any
save. -/
theorem C10_add_failure_mutates_nothing (db : DB) (uid : String)
    (gid : Option String)
    (h : ∀ lib, (libraryAdd db uid gid).1 ≠ .added lib) :
    (libraryAdd db uid gid).2 = db := by
  unfold libraryAdd at h ⊢
  by_cases hgf : falsyS gid = true
  · simp [hgf]
  · simp only [Bool.not_eq_true] at hgf
    simp only [hgf, Bool.false_eq_true, if_false] at h ⊢
    cases hfg : db.games.find? (fun g => g.id == gid.getD "") with
    | none => simp
    | some game =>
      simp only [hfg] at h ⊢
      cases hfu : db.users.find? (fun u => u.id == uid) with
      | none => simp
      | some user =>
        simp only [hfu] at h ⊢
        by_cases hc : user.library.contains game.id = true
        · rw [if_pos hc]
        · rw [if_neg hc] at h
          exact absurd rfl (h (user.library ++ [game.id]))

/-- C10 witness: adding an unknown game id fails and leaves the database
untouched. -/
theorem C10_add_failure_mutates_nothing_witness :
    (libraryAdd ⟨[⟨"u1", "ann", "a@x.com", "h", false, []⟩], []⟩ "u1"
      (some "g9")).2 = ⟨[⟨"u1", "ann", "a@x.com", "h", false, []⟩], []⟩ :=
  C10_add_failure_mutates_nothing
    ⟨[⟨"u1", "ann", "a@x.com", "h", false, []⟩], []⟩ "u1" (some "g9")
    (by
      intro lib h
      exact AddOut.noConfusion
        (show AddOut.gameNotFound = AddOut.added lib from h))

/-- C5: a registration whose username (case-sensitively) or email
(after normalization) equals that of an existing user fails with 400
(DuplicateIdentity) and creates no user; and register preserves
uniqueness of usernames and emails across all users. -/
theorem C5_register_rejects_duplicate_identity :
    (∀ (db : DB) (un em pw newId : String) (now : Nat),
      un ≠ "" → em ≠ "" → pw ≠ "" →
      (∃ u ∈ db.users, u.email = normEmail em ∨ u.username = un) →
      register db (some un) (some em) (some pw) newId now = (.duplicate, db) ∧
        (RegisterOut.duplicate).status = 400) ∧
    (∀ (db : DB) (username email password : Option String) (newId : String)
        (now : Nat),
      distinctIdents db.users = true →
      distinctIdents ((register db username email password newId now).2).users =
        true) := by
  constructor
  · intro db un em pw newId now hun hem hpw hex
    have hfs : (falsyS (some un) || falsyS (some em) || falsyS (some pw)) =
        false := by
      simp [falsyS, hun, hem, hpw]
    have hsome : (db.users.find?
        (fun u => u.email == normEmail em || u.username == un)).isSome := by
      rw [List.find?_isSome]
      rcases hex with ⟨u, hu, hm⟩
      refine ⟨u, hu, ?_⟩
      rcases hm with hm | hm <;> simp [hm]
    cases hf : db.users.find?
        (fun u => u.email == normEmail em || u.username == un) with
    | none => rw [hf] at hsome; simp at hsome
    | some w =>
      constructor
      · simp [register, hfs, hf]
      · rfl
  · intro db username email password newId now hd
    unfold register
    by_cases hfs : (falsyS username || falsyS email || falsyS password) = true
    · simpa [hfs] using hd
    · simp only [Bool.not_eq_true] at hfs
      simp only [hfs, Bool.false_eq_true, if_false]
      cases hf : db.users.find? (fun u =>
          u.email == normEmail (email.getD "") || u.username == username.getD "") with
      | some w => simpa using hd
      | none =>
        by_cases hlen : (username.getD "").length < 3
        · simpa [hlen] using hd
        · simp only [hlen, if_false]
          refine distinctIdents_append db.users _ hd ?_
          intro x hx
          have := List.find?_eq_none.mp hf x hx
          simp only [Bool.or_eq_true, beq_iff_eq, not_or] at this
          exact ⟨this.2, this.1⟩

/-- C5 witness: re-registering the email of ann under a new username is
rejected with the database unchanged, and registering a fresh identity
keeps usernames and emails distinct. -/
theorem C5_register_rejects_duplicate_identity_witness :
    (register ⟨[⟨"u1", "ann", "a@x.com", "h", false, []⟩], []⟩ (some "bob")
        (some "A@x.COM") (some "pw2") "u2" 0 =
      (.duplicate, ⟨[⟨"u1", "ann", "a@x.com", "h", false, []⟩], []⟩) ∧
      (RegisterOut.duplicate).status = 400) ∧
    distinctIdents ((register ⟨[⟨"u1", "ann", "a@x.com", "h", false, []⟩], []⟩
      (some "bob") (some "b@x.com") (some "pw2") "u2" 0).2).users = true := by
  constructor
  · exact C5_register_rejects_duplicate_identity.1
      ⟨[⟨"u1", "ann", "a@x.com", "h", false, []⟩], []⟩ "bob" "A@x.COM" "pw2"
      "u2" 0 (by decide) (by decide) (by decide)
      ⟨⟨"u1", "ann", "a@x.com", "h", false, []⟩, by simp, Or.inl (by decide)⟩
  · exact C5_register_rejects_duplicate_identity.2
      ⟨[⟨"u1", "ann", "a@x.com", "h", false, []⟩], []⟩ (some "bob")
      (some "b@x.com") (some "pw2") "u2" 0 (by decide)

/-- C6: a valid registration (fresh username and email, all fields
present, schema-valid username) persists a user with isAdmin = false
and the 10-round one-way hash of the password (never the plaintext),
and returns a token that verifies against the server secret and decodes
to the stored username and isAdmin. -/
theorem C6_register_hashes_and_issues_verifiable_token (db : DB)
    (un em pw newId : String) (now : Nat)
    (hun : un ≠ "") (hem : em ≠ "") (hpw : pw ≠ "")
    (hlen : 3 ≤ un.length)
    (hdup : db.users.find?
      (fun u => u.email == normEmail em || u.username == un) = none) :
    ∃ tok u,
      register db (some un) (some em) (some pw) newId now =
        (.success tok u, ⟨db.users ++ [u], db.games⟩) ∧
      u.isAdmin = false ∧
      u.username = un ∧
      u.passwordHash = bcryptHash 10 pw ∧
      u.passwordHash ≠ pw ∧
      jwtVerify JWT_SECRET tok now = some ⟨u.id, u.username, u.isAdmin⟩ := by
  have hfs : (falsyS (some un) || falsyS (some em) || falsyS (some pw)) =
      false := by
    simp [falsyS, hun, hem, hpw]
  have hnlt : ¬ un.length < 3 := by omega
  refine ⟨jwtSign JWT_SECRET ⟨newId, un, false⟩ now,
    ⟨newId, un, normEmail em, bcryptHash 10 pw, false, []⟩, ?_, rfl, rfl, rfl,
    ?_, ?_⟩
  · simp [register, hfs, hdup, hnlt]
  · intro he
    have hlen2 := congrArg String.length he
    have h7 : ("bcrypt$" : String).length = 7 := rfl
    have h2 : (toString (10 : Nat)).length = 2 := rfl
    have h1 : ("$" : String).length = 1 := rfl
    simp only [bcryptHash, String.length_append, h7, h2, h1] at hlen2
    omega
  · have hlt : now < now + sevenDays := by
      have : 0 < sevenDays := by decide
      omega
    simp [jwtVerify, jwtSign, hlt]

/-- C6 witness: registering ann on an empty database persists the
hashed password, isAdmin = false, and a token verifying to the claims
of ann. -/
theorem C6_register_hashes_and_issues_verifiable_token_witness :
    ∃ tok u,
      register ⟨[], []⟩ (some "ann") (some "A@x.com") (some "p12345") "u1" 5 =
        (.success tok u, ⟨[] ++ [u], []⟩) ∧
      u.isAdmin = false ∧
      u.username = "ann" ∧
      u.passwordHash = bcryptHash 10 "p12345" ∧
      u.passwordHash ≠ "p12345" ∧
      jwtVerify JWT_SECRET tok 5 = some ⟨u.id, u.username, u.isAdmin⟩ :=
  C6_register_hashes_and_issues_verifiable_token ⟨[], []⟩ "ann" "A@x.com"
    "p12345" "u1" 5 (by decide) (by decide) (by decide) (by decide) (by rfl)

/-- A database reached by two legal registrations: first a user whose
username is the string "b@x.com", then bob, whose email is "b@x.com".
The duplicate check compares email against emails and username against
usernames, so the second registration is accepted. -/
def dbShadow : DB :=
  (register (register ⟨[], []⟩ (some "b@x.com") (some "u1@y.com") (some "pw1")
    "1" 0).2 (some "bob") (some "b@x.com") (some "pw2") "2" 0).2

/-- C7 counterexample: bob is a registered user with email "b@x.com"
and password "pw2", yet login with exactly that identity and correct
password fails: the `$or` lookup finds the first user, whose username
is the literal string "b@x.com", and compares the password against the
hash of that first user. -/
theorem C7_login_shadowing_counterexample :
    dbShadow.users.map (fun u => (u.username, u.email, u.passwordHash)) =
      [("b@x.com", "u1@y.com", bcryptHash 10 "pw1"),
        ("bob", "b@x.com", bcryptHash 10 "pw2")] ∧
    login dbShadow (some "b@x.com") (some "pw2") 0 = .invalidCredentials := by
  constructor <;> rfl

/-- C7 amended: when the identity resolves unambiguously — exactly one
user matches it under the email-normalized-or-verbatim-username rule —
login with the correct password for that user succeeds with a token,
and login with an incorrect password fails; the email identity field is
matched after normalization, hence case-insensitively. -/
theorem C7_login_correct_password_when_identity_unique (db : DB)
    (ident pw pw0 : String) (u : User) (now : Nat)
    (hid : ident ≠ "") (hpw : pw ≠ "")
    (hu : u ∈ db.users)
    (hmatch : u.email = normEmail ident ∨ u.username = ident)
    (huniq : ∀ v ∈ db.users, matchesIdentity ident v = true → v = u)
    (hhash : u.passwordHash = bcryptHash 10 pw0) :
    (pw = pw0 →
      login db (some ident) (some pw) now =
        .success (jwtSign JWT_SECRET ⟨u.id, u.username, u.isAdmin⟩ now) u) ∧
    (pw ≠ pw0 →
      login db (some ident) (some pw) now = .invalidCredentials) := by
  have hfs : (falsyS (some ident) || falsyS (some pw)) = false := by
    simp [falsyS, hid, hpw]
  have hpu : matchesIdentity ident u = true := by
    rcases hmatch with hm | hm <;> simp [matchesIdentity, hm]
  have hfind : findOneByIdentity db ident = some u :=
    find?_of_unique _ db.users u hu hpu huniq
  constructor
  · intro he
    subst he
    have hcmp : bcryptCompare pw u.passwordHash = true := by
      simp [bcryptCompare, hhash]
    simp [login, hfs, hfind, hcmp]
  · intro hne
    have hcmp : bcryptCompare pw u.passwordHash = false := by
      rw [hhash]
      have : bcryptHash 10 pw0 ≠ bcryptHash 10 pw :=
        fun he => hne (bcryptHash_inj pw0 pw he).symm
      simpa [bcryptCompare] using this
    simp [login, hfs, hfind, hcmp]

/-- C7 amended witness: the email of ann is stored lowercased; login
with the uppercased email and correct password succeeds. -/
theorem C7_login_correct_password_when_identity_unique_witness :
    login ⟨[⟨"u1", "ann", "a@x.com", bcryptHash 10 "p12345", false, []⟩], []⟩
        (some "A@X.COM") (some "p12345") 0 =
      .success (jwtSign JWT_SECRET ⟨"u1", "ann", false⟩ 0)
        ⟨"u1", "ann", "a@x.com", bcryptHash 10 "p12345", false, []⟩ :=
  (C7_login_correct_password_when_identity_unique
    ⟨[⟨"u1", "ann", "a@x.com", bcryptHash 10 "p12345", false, []⟩], []⟩
    "A@X.COM" "p12345" "p12345"
    ⟨"u1", "ann", "a@x.com", bcryptHash 10 "p12345", false, []⟩ 0
    (by decide) (by decide) (by simp) (Or.inl (by decide))
    (by decide) rfl).1 rfl

/-- C8: every request to a protected route fails with 401 exactly when
no bearer credential is supplied (MissingToken), the credential cannot
be split into a token (MalformedToken), or the token does not verify —
bad signature, expired, or undecodable (InvalidToken); otherwise the
embedded claims are handed to the handler. -/
theorem C8_auth_middleware_cases (verifyFn : String → Option Claims)
    (h : Option String) :
    (authMiddleware verifyFn h = .missingToken ↔ falsyS h = true) ∧
    (authMiddleware verifyFn h = .malformedToken ↔
      falsyS h = false ∧ bearerTokenOf (h.getD "") = none) ∧
    (authMiddleware verifyFn h = .invalidToken ↔
      falsyS h = false ∧ ∃ t, bearerTokenOf (h.getD "") = some t ∧
        verifyFn t = none) ∧
    (∀ c, authMiddleware verifyFn h = .authed c ↔
      falsyS h = false ∧ ∃ t, bearerTokenOf (h.getD "") = some t ∧
        verifyFn t = some c) ∧
    ((authMiddleware verifyFn h).status = 401 ↔
      ¬ ∃ c, authMiddleware verifyFn h = .authed c) := by
  by_cases hf : falsyS h = true
  · simp [authMiddleware, hf, AuthOut.status]
  · simp only [Bool.not_eq_true] at hf
    cases hb : bearerTokenOf (h.getD "") with
    | none => simp [authMiddleware, hf, hb, AuthOut.status]
    | some t =>
      cases hv : verifyFn t with
      | none => simp [authMiddleware, hf, hb, hv, AuthOut.status]
      | some c => simp [authMiddleware, hf, hb, hv, AuthOut.status, eq_comm]

end Plataforma
